import Mathlib

set_option maxRecDepth 8000

/-!  Verification of the JuiceBox PIC/FLIP fluid solver core.

Shallow embedding of the simulation data model and the physics-kernel
operations from `src/simulation/mod.rs`, `src/simulation/sim_physics_engine.rs`
and `src/simulation/util.rs`.  `f32` values are embedded as exact rationals
(`ℚ`); machine-integer casts (`as u16`, `usize::wrapping_sub`) are modelled
explicitly.  Rust array indexing that is in bounds under the grid's shape
invariants is modelled with defaulted reads (`List.getD`); where a claim is
about a possible out-of-bounds panic, the operation returns `Option` and
`none` models the panic.  -/

namespace JuiceBox

/-- Entity identifiers of the host ECS.  `placeholder` models `Entity::PLACEHOLDER`;
all real particles get `id n`. -/
inductive Entity where
  | placeholder : Entity
  | id : Nat → Entity
deriving DecidableEq, Repr

/-- Grid cell classification (`SimGridCellType` in `simulation/mod.rs`). -/
inductive SimGridCellType where
  | Solid : SimGridCellType
  | Fluid : SimGridCellType
  | Air : SimGridCellType
deriving DecidableEq, Repr

/-- The error enumeration of the simulation (`crate::error::Error`). -/
inductive Error where
  | OutOfGridBounds : String → Error
  | GridSizeError : String → Error
deriving DecidableEq, Repr

/-- Read entry `(r, c)` of a row-major list of lists, with default `d`
(models in-bounds Rust indexing `m[r][c]`). -/
def get2 {α : Type} (m : List (List α)) (r c : Nat) (d : α) : α :=
  (m.getD r []).getD c d

/-- Write entry `(r, c)` of a row-major list of lists (models in-bounds
Rust index assignment `m[r][c] = x`). -/
def set2 {α : Type} (m : List (List α)) (r c : Nat) (x : α) : List (List α) :=
  m.set r ((m.getD r []).set c x)

/-- The exact value of `f32::MIN`, `-(2^128 - 2^104)`; the sentinel the solver
stores in freshly created velocity grids. -/
def fMIN : ℚ := -340282346638528859811704183484516925440

/-- The MAC-grid state (`SimGrid` in `simulation/mod.rs`).
`rows`/`cols` are `dimensions.0`/`dimensions.1` (u16 in the source). -/
@[ext]
structure SimGrid where
  rows : Nat
  cols : Nat
  cell_size : Nat
  cell_type : List (List SimGridCellType)
  velocity_u : List (List ℚ)
  velocity_v : List (List ℚ)
  spatial_lookup : List (List Entity)
  density : List ℚ
deriving DecidableEq, Repr

/-- The solver constraints record (`SimConstraints` in `simulation/mod.rs`).
Fields not touched by any verified phase (the PIC/FLIP blend coefficient and
the grab-tool selection list) are omitted. -/
structure SimConstraints where
  is_paused : Bool
  timestep : ℚ
  gravity : ℚ × ℚ
  incomp_iters_per_frame : Nat
  collision_iters_per_frame : Nat
  particle_radius : ℚ
  particle_count : Nat
  particle_rest_density : ℚ
deriving DecidableEq, Repr

/-- A particle (`SimParticle`): position `(px, py)`, velocity `(vx, vy)`. -/
structure Particle where
  px : ℚ
  py : ℚ
  vx : ℚ
  vy : ℚ
deriving DecidableEq, Repr

/-- Shape invariants of a grid: list dimensions match `dimensions`, which fit
in `u16`, and the cell count fits in `u16` arithmetic. -/
def WF (g : SimGrid) : Prop :=
  g.rows < 65536 ∧ g.cols < 65536 ∧ g.rows * g.cols < 65536 ∧
  g.cell_type.length = g.rows ∧ (∀ row ∈ g.cell_type, row.length = g.cols) ∧
  g.velocity_u.length = g.rows ∧ (∀ row ∈ g.velocity_u, row.length = g.cols + 1) ∧
  g.velocity_v.length = g.rows + 1 ∧ (∀ row ∈ g.velocity_v, row.length = g.cols) ∧
  g.spatial_lookup.length = g.rows * g.cols ∧
  g.density.length = g.rows * g.cols

instance (g : SimGrid) : Decidable (WF g) := by
  unfold WF; infer_instance

/-! ## Spatial-lookup operations (`simulation/mod.rs`) -/

/-- Rust `Vec::swap_remove i`: overwrite slot `i` with the last element, then
drop the last element.  (Only called with `i` in bounds.) -/
def swapRemove {α : Type} (l : List α) (i : Nat) (d : α) : List α :=
  (l.set i (l.getD (l.length - 1) d)).dropLast

/-- `SimGrid::add_particle_to_lookup`.  The source guards with
`lookup_index > len` (strict), then indexes: `none` models the panic that
happens when `lookup_index = len` slips past the guard. -/
def add_particle_to_lookup (g : SimGrid) (particle_id : Entity)
    (lookup_index : Nat) : Option SimGrid :=
  if lookup_index > g.spatial_lookup.length then some g
  else if h : lookup_index < g.spatial_lookup.length then
    let bucket := g.spatial_lookup.get ⟨lookup_index, h⟩
    some { g with spatial_lookup := g.spatial_lookup.set lookup_index (bucket ++ [particle_id]) }
  else none

/-- `SimGrid::remove_particle_from_lookup`: same `>` guard; on success,
swap-remove the first occurrence of `particle_id` in the bucket. -/
def remove_particle_from_lookup (g : SimGrid) (particle_id : Entity)
    (lookup_index : Nat) : Option SimGrid :=
  if lookup_index > g.spatial_lookup.length then some g
  else if h : lookup_index < g.spatial_lookup.length then
    let bucket := g.spatial_lookup.get ⟨lookup_index, h⟩
    match bucket.findIdx? (fun e => e == particle_id) with
    | some j =>
      let bucket1 := swapRemove bucket j Entity.placeholder
      some { g with spatial_lookup := g.spatial_lookup.set lookup_index bucket1 }
    | none => some g
  else none

/-- `SimGrid::get_particles_in_lookup`: empty for an index at or past
`dimensions.0 * dimensions.1` (u16 product), otherwise the bucket without
placeholder entries. -/
def get_particles_in_lookup (g : SimGrid) (lookup_index : Nat) : List Entity :=
  if lookup_index ≥ g.rows * g.cols % 65536 then []
  else (g.spatial_lookup.getD lookup_index []).filter
    (fun e => ¬ (e = Entity.placeholder))

/-- `SimGrid::get_lookup_index` on coordinates `(r, c)`: u16 arithmetic
`(r as u16 * dimensions.1) + c as u16`, wrapping `as usize` result. -/
def get_lookup_index (g : SimGrid) (r c : Nat) : Nat :=
  (min r 65535 * g.cols + min c 65535) % 65536

/-! ## Pause / step event handling (`handle_events` in `simulation/mod.rs`) -/

/-- The driver state that a `PlayPauseStepEvent` can affect: the paused flag
and — abstracting `step_simulation_once` to a counter — the number of ticks
run so far. -/
structure PauseState where
  is_paused : Bool
  ticks_run : Nat
deriving DecidableEq, Repr

/-- Processing of one `PlayPauseStepEvent` in `handle_events`: a non-step
event toggles the paused flag; a step event forces the flag to `true` (if it
was not already) and then invokes `step_simulation_once` exactly once. -/
def handle_pause_event (is_step_event : Bool) (s : PauseState) : PauseState :=
  if ¬ is_step_event then { s with is_paused := ¬ s.is_paused }
  else
    let s1 := if ¬ s.is_paused then { s with is_paused := true } else s
    { s1 with ticks_run := s1.ticks_run + 1 }

/-! ## Cell-type mutator (`SimGrid::set_grid_cell_type`) -/

/-- `SimGrid::set_grid_cell_type`: bounds-check `row` then `col` against
`dimensions`, erroring without touching the grid; otherwise write the cell.
The second component is `none` on success (`Ok(())`). -/
def set_grid_cell_type (g : SimGrid) (row col : Nat) (cell_type : SimGridCellType) :
    SimGrid × Option Error :=
  if row ≥ g.rows then (g, some (Error.OutOfGridBounds "X-coord. is out of bounds!"))
  else if col ≥ g.cols then (g, some (Error.OutOfGridBounds "Y-coord. is out of bounds!"))
  else ({ g with cell_type := set2 g.cell_type row col cell_type }, none)

/-! ## Geometry helpers (`simulation/mod.rs`) -/

/-- `SimGrid::get_cell_type_value`: 1 for an in-bounds Fluid or Air cell,
0 for Solid or out-of-bounds coordinates. -/
def get_cell_type_value (g : SimGrid) (cell_row cell_col : Nat) : Nat :=
  if cell_row ≥ g.rows ∨ cell_col ≥ g.cols then 0
  else match get2 g.cell_type cell_row cell_col SimGridCellType.Air with
    | SimGridCellType.Solid => 0
    | SimGridCellType.Fluid => 1
    | SimGridCellType.Air => 1

/-- `usize::wrapping_sub(n, 1)` on the 64-bit `usize` of the target. -/
def wrappingSub1 (n : Nat) : Nat :=
  if n = 0 then 2 ^ 64 - 1 else n - 1

/-- `SimGrid::get_velocity_point_pos`: world position of a MAC face.  Note the
source computes `offset` as `(self.cell_size / 2) as f32`, a u16 integer
division. -/
def get_velocity_point_pos (g : SimGrid) (row_index col_index : Nat)
    (horizontal : Bool) : ℚ × ℚ :=
  let grid_height : ℚ := ((g.rows * g.cell_size : Nat) : ℚ)
  let offset : ℚ := ((g.cell_size / 2 : Nat) : ℚ)
  if horizontal then
    ((col_index : ℚ) * g.cell_size, grid_height - ((row_index : ℚ) * g.cell_size + offset))
  else
    ((col_index : ℚ) * g.cell_size + offset, grid_height - (row_index : ℚ) * g.cell_size)

/-- `SimGrid::get_cell_coordinates_from_position`: floor to `(row, col)` then
clamp into `[0, rows-1] × [0, cols-1]` (max with 0 first, then min). -/
def get_cell_coordinates_from_position (g : SimGrid) (position : ℚ × ℚ) : Nat × Nat :=
  let cell_size : ℚ := (g.cell_size : ℚ)
  let grid_upper_bound : ℚ := (g.rows : ℚ) * cell_size
  let row : ℤ := Int.floor ((grid_upper_bound - position.2) / cell_size)
  let col : ℤ := Int.floor (position.1 / cell_size)
  ((min ((g.rows : ℤ) - 1) (max 0 row)).toNat, (min ((g.cols : ℤ) - 1) (max 0 col)).toNat)

/-- `SimGrid::get_cell_velocity`: zero for a guard hit — note the `as u16`
truncating casts in the guard — otherwise the mean of the two `u` and two `v`
faces of the cell.  `none` models the indexing panic that the truncating cast
makes reachable. -/
def get_cell_velocity (g : SimGrid) (row column : Nat) : Option (ℚ × ℚ) :=
  if row % 65536 ≥ g.rows ∨ column % 65536 ≥ g.cols ∨ row = 0 ∨ column = 0 then
    some (0, 0)
  else
    match (g.velocity_u[row]?).bind (fun l => l[column]?),
        (g.velocity_u[row]?).bind (fun l => l[column + 1]?),
        (g.velocity_v[row]?).bind (fun l => l[column]?),
        (g.velocity_v[row + 1]?).bind (fun l => l[column]?) with
    | some left_u, some right_u, some top_v, some down_v =>
      some ((left_u + right_u) / 2, (top_v + down_v) / 2)
    | _, _, _, _ => none

/-! ## Boundary clamp (`handle_particle_grid_collisions`) -/

/-- The left/right collision checks of `handle_particle_grid_collisions`. -/
def clamp_particle_x (radius grid_width : ℚ) (p : Particle) : Particle :=
  if p.px < radius then { p with px := radius, vx := 0 }
  else if p.px > grid_width - radius then { p with px := grid_width - radius, vx := 0 }
  else p

/-- The up/down collision checks of `handle_particle_grid_collisions`. -/
def clamp_particle_y (radius grid_height : ℚ) (p : Particle) : Particle :=
  if p.py < radius then { p with py := radius, vy := 0 }
  else if p.py > grid_height - radius then { p with py := grid_height - radius, vy := 0 }
  else p

/-- The per-particle body of `handle_particle_grid_collisions`: the x-axis
checks followed by the y-axis checks. -/
def clamp_particle (radius grid_width grid_height : ℚ) (p : Particle) : Particle :=
  clamp_particle_y radius grid_height (clamp_particle_x radius grid_width p)

/-- `handle_particle_grid_collisions`: apply the clamp to every particle;
`grid_width = cell_size * dimensions.1`, `grid_height = cell_size * dimensions.0`. -/
def handle_particle_grid_collisions (c : SimConstraints) (g : SimGrid)
    (particles : List Particle) : List Particle :=
  particles.map
    (clamp_particle c.particle_radius ((g.cell_size : ℚ) * g.cols) ((g.cell_size : ℚ) * g.rows))

/-! ## Pressure projection (`make_grid_velocities_incompressible`) -/

/-- `calculate_cell_solids`: cell-type values of center, left, right, up, down
(`usize::wrapping_sub` for the left and up indices). -/
def calculate_cell_solids (g : SimGrid) (cell_row cell_col : Nat) : List Nat :=
  [get_cell_type_value g cell_row cell_col,
   get_cell_type_value g cell_row (wrappingSub1 cell_col),
   get_cell_type_value g cell_row (cell_col + 1),
   get_cell_type_value g (wrappingSub1 cell_row) cell_col,
   get_cell_type_value g (cell_row + 1) cell_col]

/-- `calculate_cell_divergence`: `(right - left) + (up - down)` over the four
face velocities of the cell. -/
def calculate_cell_divergence (g : SimGrid) (cell_row cell_col : Nat) : ℚ :=
  let left_velocity := get2 g.velocity_u cell_row cell_col 0
  let right_velocity := get2 g.velocity_u cell_row (cell_col + 1) 0
  let up_velocity := get2 g.velocity_v cell_row cell_col 0
  let down_velocity := get2 g.velocity_v (cell_row + 1) cell_col 0
  (right_velocity - left_velocity) + (up_velocity - down_velocity)

/-- One cell visit of the Gauss-Seidel loop in
`make_grid_velocities_incompressible`: skip non-Fluid cells and cells whose
neighbor mask sums to zero; otherwise adjust divergence by the density
compression (stiffness 1.0), form the over-relaxed momentum and push it into
the four faces. -/
def incomp_cell_update (c : SimConstraints) (g : SimGrid) (row col : Nat) : SimGrid :=
  if get2 g.cell_type row col SimGridCellType.Air ≠ SimGridCellType.Fluid then g
  else
    let solids := calculate_cell_solids g row col
    let left_solid := solids.getD 1 0
    let right_solid := solids.getD 2 0
    let up_solid := solids.getD 3 0
    let down_solid := solids.getD 4 0
    let solids_sum := left_solid + right_solid + up_solid + down_solid
    if solids_sum = 0 then g
    else
      let divergence0 := calculate_cell_divergence g row col
      let divergence :=
        if 0 < c.particle_rest_density then
          let density := g.density.getD (get_lookup_index g row col) 0
          let compression := density - c.particle_rest_density
          if 0 < compression then divergence0 - 1 * compression else divergence0
        else divergence0
      let overrelaxation : ℚ := 199 / 100
      let momentum : ℚ := overrelaxation * ((0 - divergence) / (solids_sum : ℚ))
      let u1 := set2 g.velocity_u row col (get2 g.velocity_u row col 0 - momentum * left_solid)
      let u2 := set2 u1 row (col + 1) (get2 u1 row (col + 1) 0 + momentum * right_solid)
      let v1 := set2 g.velocity_v row col (get2 g.velocity_v row col 0 + momentum * up_solid)
      let v2 := set2 v1 (row + 1) col (get2 v1 (row + 1) col 0 - momentum * down_solid)
      { g with velocity_u := u2, velocity_v := v2 }

/-- One full Gauss-Seidel sweep over all cells in row-major order. -/
def incomp_iteration (c : SimConstraints) (g : SimGrid) : SimGrid :=
  (List.range g.rows).foldl
    (fun g1 row => (List.range g.cols).foldl (fun g2 col => incomp_cell_update c g2 row col) g1) g

/-- The pre-iteration phase of `make_grid_velocities_incompressible`: sum the
whole density array, count its entries, and overwrite
`particle_rest_density` with the mean whenever the count is positive. -/
def compute_rest_density (g : SimGrid) (c : SimConstraints) : SimConstraints :=
  let density_sum : ℚ := g.density.foldl (fun a b => a + b) 0
  let fluid_cell_count : ℚ := g.density.foldl (fun a _ => a + 1) 0
  if 0 < fluid_cell_count then { c with particle_rest_density := density_sum / fluid_cell_count }
  else c

/-- `make_grid_velocities_incompressible`: rest-density phase, then
`incomp_iters_per_frame` Gauss-Seidel sweeps. -/
def make_grid_velocities_incompressible (g : SimGrid) (c : SimConstraints) :
    SimGrid × SimConstraints :=
  let c1 := compute_rest_density g c
  let gfinal := (List.range c1.incomp_iters_per_frame).foldl (fun gacc _ => incomp_iteration c1 gacc) g
  (gfinal, c1)

/-! ## 3x3 neighborhood search (`SimGrid::get_nearby_particles`) -/

/-- The `cells_to_check` list built by `get_nearby_particles`, in push order.
Note the source's border tests: `lookup_index % (col_count - 1) == 0` for the
right border and `lookup_index % col_count == 0` for the left border. -/
def nearby_cells_to_check (g : SimGrid) (lookup_index : Nat) : List Nat :=
  let col_count := g.cols
  let len := g.spatial_lookup.length
  let is_cell_on_right_border := lookup_index % (col_count - 1) = 0
  let is_cell_on_left_border := lookup_index % col_count = 0
  let l1 := [lookup_index]
  let l2 := if 0 < lookup_index ∧ ¬ is_cell_on_left_border then l1 ++ [lookup_index - 1] else l1
  let l3 := if lookup_index < len ∧ ¬ is_cell_on_right_border then l2 ++ [lookup_index + 1] else l2
  let l4 :=
    if col_count ≤ lookup_index then
      let a := l3 ++ [lookup_index - col_count]
      let b := if ¬ is_cell_on_left_border then a ++ [lookup_index - col_count - 1] else a
      if ¬ is_cell_on_right_border then b ++ [lookup_index - col_count + 1] else b
    else l3
  if lookup_index ≤ len - col_count then
    let a := l4 ++ [lookup_index + col_count]
    let b := if ¬ is_cell_on_left_border then a ++ [lookup_index + col_count - 1] else a
    if lookup_index < len - col_count ∧ ¬ is_cell_on_right_border then
      b ++ [lookup_index + col_count + 1]
    else b
  else l4

/-- `SimGrid::get_nearby_particles`: concatenate the buckets of every cell in
`cells_to_check`. -/
def get_nearby_particles (g : SimGrid) (lookup_index : Nat) : List Entity :=
  (nearby_cells_to_check g lookup_index).foldl
    (fun acc j => acc ++ get_particles_in_lookup g j) []

/-- Modelled from the spec claim for comparison: the lookup indices of the
3x3 neighborhood of the cell decoded as `(i / cols, i % cols)`, truncated at
the grid's four borders (no wrap-around). -/
def claimed_neighborhood (rows cols i : Nat) : List Nat :=
  let r : ℤ := (i : ℤ) / (cols : ℤ)
  let c : ℤ := (i : ℤ) % (cols : ℤ)
  ([(-1, -1), (-1, 0), (-1, 1), (0, -1), (0, 0), (0, 1), (1, -1), (1, 0), (1, 1)] :
      List (ℤ × ℤ)).filterMap (fun d =>
    let r1 := r + d.1
    let c1 := c + d.2
    if 0 ≤ r1 ∧ r1 < (rows : ℤ) ∧ 0 ≤ c1 ∧ c1 < (cols : ℤ) then
      some (r1 * cols + c1).toNat
    else none)

/-! ## Cell classification (`SimGrid::label_cells`) -/

/-- `SimGrid::label_cells`: rebuild `cell_type`, keeping Solid cells Solid and
labelling every other cell Fluid when `get_particles_in_lookup` of its bucket
is non-empty, Air otherwise. -/
def label_cells (g : SimGrid) : SimGrid :=
  { g with cell_type :=
      (List.range g.rows).map (fun row => (List.range g.cols).map (fun col =>
        if get2 g.cell_type row col SimGridCellType.Air = SimGridCellType.Solid then
          SimGridCellType.Solid
        else if get_particles_in_lookup g (get_lookup_index g row col) = [] then
          SimGridCellType.Air
        else SimGridCellType.Fluid)) }

/-! ## Particle-to-grid transfer (`particles_to_grid` and `find_influence`)

`find_influence` divides the Euclidean distance `|particle - point|` (an
`f32` square root, not rational-representable) by the cell size.  The
embedding therefore takes the distance function `dist` as a parameter and
keeps every branch of the kernel and of the transfer loops exact; all
theorems below hold for every `dist`. -/

/-- `find_influence` as a function of the already-computed distance `diff`:
zero beyond 1.5 cells, `1 - d/h` for positive scaled distance, `1 + d/h` for
negative (unreachable for a true distance), zero at zero. -/
def find_influence_of_dist (diff : ℚ) (grid_scale : Nat) : ℚ :=
  let scaled_diff := diff / (grid_scale : ℚ)
  if scaled_diff > 3 / 2 then 0
  else if scaled_diff > 0 then 1 - scaled_diff
  else if scaled_diff < 0 then 1 + scaled_diff
  else 0

/-- The accumulation loop run at one face: fold over all particles, adding
influence and influence-weighted velocity (component selected by `comp`)
only when the influence is nonzero. -/
def p2g_accumulate (dist : ℚ × ℚ → ℚ × ℚ → ℚ) (cell_size : Nat) (pos : ℚ × ℚ)
    (comp : Particle → ℚ) (particles : List Particle) : ℚ × ℚ :=
  particles.foldl (fun acc p =>
    let influence := find_influence_of_dist (dist (p.px, p.py) pos) cell_size
    if influence ≠ 0 then (acc.1 + influence, acc.2 + comp p * influence) else acc)
    (0, 0)

/-- The skip test for the horizontal face `(row, col)`: on the domain's outer
boundary, or between two Air cells, or between two Solid cells. -/
def p2g_u_skipped (g : SimGrid) (row_index col_index : Nat) : Bool :=
  let half_cell : ℚ := (g.cell_size : ℚ) / 2
  let grid_width : ℚ := ((g.cols : ℚ)) * g.cell_size
  let pos := get_velocity_point_pos g row_index col_index true
  let left_center := (pos.1 - half_cell, pos.2)
  let right_center := (pos.1 + half_cell, pos.2)
  if left_center.1 < 0 then true
  else if right_center.1 > grid_width then true
  else
    let lc := get_cell_coordinates_from_position g left_center
    let rc := get_cell_coordinates_from_position g right_center
    let lt := get2 g.cell_type lc.1 lc.2 SimGridCellType.Air
    let rt := get2 g.cell_type rc.1 rc.2 SimGridCellType.Air
    if lt = SimGridCellType.Air ∧ rt = SimGridCellType.Air then true
    else if lt = SimGridCellType.Solid ∧ rt = SimGridCellType.Solid then true
    else false

/-- The skip test for the vertical face `(row, col)`: below/above the domain,
or between two Air cells, or between two Solid cells. -/
def p2g_v_skipped (g : SimGrid) (row_index col_index : Nat) : Bool :=
  let half_cell : ℚ := (g.cell_size : ℚ) / 2
  let grid_height : ℚ := ((g.rows : ℚ)) * g.cell_size
  let pos := get_velocity_point_pos g row_index col_index false
  let bottom_center := (pos.1, pos.2 - half_cell)
  let top_center := (pos.1, pos.2 + half_cell)
  if bottom_center.2 < 0 then true
  else if top_center.2 > grid_height then true
  else
    let bc := get_cell_coordinates_from_position g bottom_center
    let tc := get_cell_coordinates_from_position g top_center
    let bt := get2 g.cell_type bc.1 bc.2 SimGridCellType.Air
    let tt := get2 g.cell_type tc.1 tc.2 SimGridCellType.Air
    if bt = SimGridCellType.Air ∧ tt = SimGridCellType.Air then true
    else if bt = SimGridCellType.Solid ∧ tt = SimGridCellType.Solid then true
    else false

/-- The value `particles_to_grid` leaves in the horizontal face `(row, col)`
of the freshly `f32::MIN`-initialized `velocity_u` grid. -/
def p2g_u_face (dist : ℚ × ℚ → ℚ × ℚ → ℚ) (g : SimGrid) (particles : List Particle)
    (row_index col_index : Nat) : ℚ :=
  if p2g_u_skipped g row_index col_index then fMIN
  else
    let pos := get_velocity_point_pos g row_index col_index true
    let acc := p2g_accumulate dist g.cell_size pos (fun p => p.vx) particles
    if acc.1 = 0 then 0 else acc.2 / acc.1

/-- The value `particles_to_grid` leaves in the vertical face `(row, col)`
of the freshly `f32::MIN`-initialized `velocity_v` grid. -/
def p2g_v_face (dist : ℚ × ℚ → ℚ × ℚ → ℚ) (g : SimGrid) (particles : List Particle)
    (row_index col_index : Nat) : ℚ :=
  if p2g_v_skipped g row_index col_index then fMIN
  else
    let pos := get_velocity_point_pos g row_index col_index false
    let acc := p2g_accumulate dist g.cell_size pos (fun p => p.vy) particles
    if acc.1 = 0 then 0 else acc.2 / acc.1

/-- `particles_to_grid`: write both new face-velocity grids (every face
computed independently from the old grid's cell types). -/
def particles_to_grid (dist : ℚ × ℚ → ℚ × ℚ → ℚ) (g : SimGrid)
    (particles : List Particle) : SimGrid :=
  { g with
    velocity_u := (List.range g.rows).map (fun r =>
      (List.range (g.cols + 1)).map (fun c => p2g_u_face dist g particles r c)),
    velocity_v := (List.range (g.rows + 1)).map (fun r =>
      (List.range g.cols).map (fun c => p2g_v_face dist g particles r c)) }

/-! ## Definitions written from the claims' wording, for comparison with the
source embeddings above. -/

/-- Modelled from the spec claim: the neighbor mask `(s_L, s_R, s_U, s_D)` of
cell `(row, col)`, with an out-of-bounds neighbor counted as 0. -/
def spec_solid_mask (g : SimGrid) (row col : Nat) : Nat × Nat × Nat × Nat :=
  ((if col = 0 then 0 else get_cell_type_value g row (col - 1)),
   get_cell_type_value g row (col + 1),
   (if row = 0 then 0 else get_cell_type_value g (row - 1) col),
   get_cell_type_value g (row + 1) col)

/-- Modelled from the spec claim: `S = s_L + s_R + s_U + s_D`. -/
def spec_solid_sum (g : SimGrid) (row col : Nat) : Nat :=
  (spec_solid_mask g row col).1 + (spec_solid_mask g row col).2.1 +
    (spec_solid_mask g row col).2.2.1 + (spec_solid_mask g row col).2.2.2

/-- Modelled from the spec claim:
`D = (u[r][c+1] - u[r][c]) + (v[r][c] - v[r+1][c])`. -/
def spec_divergence (g : SimGrid) (row col : Nat) : ℚ :=
  (get2 g.velocity_u row (col + 1) 0 - get2 g.velocity_u row col 0) +
    (get2 g.velocity_v row col 0 - get2 g.velocity_v (row + 1) col 0)

/-- Modelled from the spec claim: `D` reduced by `1.0 * compression` when
`particle_rest_density > 0` and the compression is positive. -/
def spec_adjusted_divergence (c : SimConstraints) (g : SimGrid) (row col : Nat) : ℚ :=
  if 0 < c.particle_rest_density ∧
      0 < g.density.getD (get_lookup_index g row col) 0 - c.particle_rest_density then
    spec_divergence g row col -
      1 * (g.density.getD (get_lookup_index g row col) 0 - c.particle_rest_density)
  else spec_divergence g row col

/-- Modelled from the spec claim: `m = 1.99 * (-D) / S`. -/
def spec_momentum (c : SimConstraints) (g : SimGrid) (row col : Nat) : ℚ :=
  199 / 100 * (0 - spec_adjusted_divergence c g row col) / ((spec_solid_sum g row col : ℚ))

/-- Modelled from the spec claim: the total influence `Σ w_i` of all
particles at a face. -/
def spec_influence_sum (dist : ℚ × ℚ → ℚ × ℚ → ℚ) (cell_size : Nat) (pos : ℚ × ℚ)
    (particles : List Particle) : ℚ :=
  (particles.map (fun p => find_influence_of_dist (dist (p.px, p.py) pos) cell_size)).sum

/-- Modelled from the spec claim: the influence-weighted velocity sum
`Σ w_i * v_i` of all particles at a face. -/
def spec_weighted_sum (dist : ℚ × ℚ → ℚ × ℚ → ℚ) (cell_size : Nat) (pos : ℚ × ℚ)
    (comp : Particle → ℚ) (particles : List Particle) : ℚ :=
  (particles.map (fun p => comp p * find_influence_of_dist (dist (p.px, p.py) pos) cell_size)).sum

/-! ## Concrete instances used by witnesses and counterexamples. -/

/-- A well-formed 1x2 grid with two Fluid cells and nonzero face velocities. -/
def gIncomp : SimGrid :=
  { rows := 1, cols := 2, cell_size := 5,
    cell_type := [[SimGridCellType.Fluid, SimGridCellType.Fluid]],
    velocity_u := [[4, 6, 8]],
    velocity_v := [[5, 2], [3, 4]],
    spatial_lookup := [[], []],
    density := [0, 0] }

/-- Constraints with zero rest density and zero projection iterations. -/
def cIncomp : SimConstraints :=
  { is_paused := true, timestep := 1 / 120, gravity := (0, -385),
    incomp_iters_per_frame := 0, collision_iters_per_frame := 2,
    particle_radius := 2, particle_count := 0, particle_rest_density := 0 }

/-- `gIncomp` with a non-constant density array of mean 4. -/
def gRest : SimGrid := { gIncomp with density := [2, 6] }

/-- Constraints whose `particle_rest_density` is already nonzero (3). -/
def cRest : SimConstraints := { cIncomp with particle_rest_density := 3 }

/-- A 2x2 grid with distinct face velocities everywhere. -/
def gVel : SimGrid :=
  { rows := 2, cols := 2, cell_size := 5,
    cell_type := [[SimGridCellType.Air, SimGridCellType.Air],
                  [SimGridCellType.Air, SimGridCellType.Air]],
    velocity_u := [[1, 2, 3], [4, 5, 6]],
    velocity_v := [[1, 2], [3, 4], [5, 6]],
    spatial_lookup := [[], [], [], []],
    density := [0, 0, 0, 0] }

/-- A 3x3 grid whose only particle, `id 7`, sits in bucket 6 = cell (2, 0). -/
def gNear : SimGrid :=
  { rows := 3, cols := 3, cell_size := 5,
    cell_type := [[SimGridCellType.Air, SimGridCellType.Air, SimGridCellType.Air],
                  [SimGridCellType.Air, SimGridCellType.Air, SimGridCellType.Air],
                  [SimGridCellType.Air, SimGridCellType.Air, SimGridCellType.Air]],
    velocity_u := [[0, 0, 0, 0], [0, 0, 0, 0], [0, 0, 0, 0]],
    velocity_v := [[0, 0, 0], [0, 0, 0], [0, 0, 0], [0, 0, 0]],
    spatial_lookup := [[], [], [], [], [], [], [Entity.id 7], [], []],
    density := [0, 0, 0, 0, 0, 0, 0, 0, 0] }

/-- A 1x1 grid whose single non-Solid cell has a bucket holding only the
placeholder sentinel. -/
def gLabel : SimGrid :=
  { rows := 1, cols := 1, cell_size := 5,
    cell_type := [[SimGridCellType.Air]],
    velocity_u := [[0, 0]],
    velocity_v := [[0], [0]],
    spatial_lookup := [[Entity.placeholder]],
    density := [0] }

/-- A well-formed 1x2 grid holding a real particle in bucket 0, for the
classification witness. -/
def gLabelW : SimGrid :=
  { rows := 1, cols := 2, cell_size := 5,
    cell_type := [[SimGridCellType.Air, SimGridCellType.Solid]],
    velocity_u := [[0, 0, 0]],
    velocity_v := [[0, 0], [0, 0]],
    spatial_lookup := [[Entity.id 3], []],
    density := [0, 0] }

/-- A distance function that is identically zero; the transfer theorems hold
for every distance function, so any concrete one serves the witnesses. -/
def dzero : ℚ × ℚ → ℚ × ℚ → ℚ := fun _ _ => 0

/-- A 1x2 all-Fluid grid with sentinel-initialized velocity grids and no
particles anywhere. -/
def gP2G : SimGrid :=
  { rows := 1, cols := 2, cell_size := 5,
    cell_type := [[SimGridCellType.Fluid, SimGridCellType.Fluid]],
    velocity_u := [[fMIN, fMIN, fMIN]],
    velocity_v := [[fMIN, fMIN], [fMIN, fMIN]],
    spatial_lookup := [[], []],
    density := [0, 0] }

/-! ## Helper lemmas about the list embedding of 2-dimensional arrays. -/

theorem length_set2 {α : Type} (m : List (List α)) (r c : Nat) (x : α) :
    (set2 m r c x).length = m.length :=
  List.length_set m r ((m.getD r []).set c x)

theorem getD_row_set2_self {α : Type} (m : List (List α)) (r c : Nat) (x : α)
    (h : r < m.length) :
    (set2 m r c x).getD r [] = (m.getD r []).set c x := by
  unfold set2
  rw [List.getD_eq_getElem?_getD, List.getElem?_set_eq_of_lt _ h]
  rfl

theorem getD_row_set2_ne {α : Type} (m : List (List α)) (r c : Nat) (x : α)
    (r' : Nat) (h : r ≠ r') :
    (set2 m r c x).getD r' [] = m.getD r' [] := by
  unfold set2
  rw [List.getD_eq_getElem?_getD, List.getElem?_set_ne h, ← List.getD_eq_getElem?_getD]

theorem get2_set2_self {α : Type} (m : List (List α)) (r c : Nat) (x d : α)
    (h1 : r < m.length) (h2 : c < (m.getD r []).length) :
    get2 (set2 m r c x) r c d = x := by
  unfold get2
  rw [getD_row_set2_self m r c x h1, List.getD_eq_getElem?_getD,
    List.getElem?_set_eq_of_lt _ h2]
  rfl

theorem get2_set2_ne {α : Type} (m : List (List α)) (r c : Nat) (x d : α)
    (r' c' : Nat) (h : ¬(r' = r ∧ c' = c)) :
    get2 (set2 m r c x) r' c' d = get2 m r' c' d := by
  unfold get2
  by_cases hr : r = r'
  · subst hr
    have hc : c ≠ c' := fun hc => h ⟨rfl, hc.symm⟩
    by_cases hlen : r < m.length
    · rw [getD_row_set2_self m r c x hlen, List.getD_eq_getElem?_getD,
        List.getElem?_set_ne hc, ← List.getD_eq_getElem?_getD]
    · unfold set2
      rw [List.set_eq_of_length_le (Nat.le_of_not_lt hlen)]
  · rw [getD_row_set2_ne m r c x r' hr]

theorem get2_map_range {α : Type} (nr nc : Nat) (f : Nat → Nat → α) (r c : Nat)
    (d : α) (hr : r < nr) (hc : c < nc) :
    get2 ((List.range nr).map (fun i => (List.range nc).map (fun j => f i j))) r c d =
      f r c := by
  unfold get2
  have h1 : ((List.range nr).map (fun i => (List.range nc).map (fun j => f i j)))[r]? =
      some ((List.range nc).map (fun j => f r j)) := by
    rw [List.getElem?_map, List.getElem?_range hr]
    rfl
  have h2 : ((List.range nc).map (fun j => f r j))[c]? = some (f r c) := by
    rw [List.getElem?_map, List.getElem?_range hc]
    rfl
  rw [List.getD_eq_getElem?_getD ((List.range nr).map _) r, h1, Option.getD_some,
    List.getD_eq_getElem?_getD, h2, Option.getD_some]

theorem getD_row_length {α : Type} (m : List (List α)) (r k : Nat)
    (hlen : r < m.length) (hall : ∀ row ∈ m, row.length = k) :
    (m.getD r []).length = k := by
  rw [List.getD_eq_getElem m [] hlen]
  exact hall _ (List.getElem_mem hlen)

theorem foldl_count {α : Type} (l : List α) (n : ℚ) :
    l.foldl (fun a _ => a + 1) n = n + l.length := by
  induction l generalizing n with
  | nil => simp
  | cons x xs ih =>
    simp only [List.foldl_cons, List.length_cons, ih]
    push_cast
    ring

theorem foldl_add_eq_sum (l : List ℚ) (n : ℚ) :
    l.foldl (fun a b => a + b) n = n + l.sum := by
  induction l generalizing n with
  | nil => simp
  | cons x xs ih =>
    simp only [List.foldl_cons, List.sum_cons, ih]
    ring

/-! ## Claim theorems -/

/-- Claim C6: `set_grid_cell_type(row, col, t)` errors with `OutOfGridBounds`
exactly when `row ≥ R` or `col ≥ C`, leaving the grid untouched; otherwise it
returns Ok, sets `cell_type[row][col] = t` and changes nothing else. -/
theorem set_grid_cell_type_spec (g : SimGrid) (row col : Nat) (t : SimGridCellType)
    (hwf : WF g) :
    ((∃ msg, (set_grid_cell_type g row col t).2 = some (Error.OutOfGridBounds msg)) ↔
      row ≥ g.rows ∨ col ≥ g.cols) ∧
    (row ≥ g.rows ∨ col ≥ g.cols → (set_grid_cell_type g row col t).1 = g) ∧
    (row < g.rows → col < g.cols →
      (set_grid_cell_type g row col t).2 = none ∧
      get2 (set_grid_cell_type g row col t).1.cell_type row col SimGridCellType.Air = t ∧
      (∀ r' c', ¬(r' = row ∧ c' = col) →
        get2 (set_grid_cell_type g row col t).1.cell_type r' c' SimGridCellType.Air =
          get2 g.cell_type r' c' SimGridCellType.Air) ∧
      (set_grid_cell_type g row col t).1.rows = g.rows ∧
      (set_grid_cell_type g row col t).1.cols = g.cols ∧
      (set_grid_cell_type g row col t).1.cell_size = g.cell_size ∧
      (set_grid_cell_type g row col t).1.velocity_u = g.velocity_u ∧
      (set_grid_cell_type g row col t).1.velocity_v = g.velocity_v ∧
      (set_grid_cell_type g row col t).1.spatial_lookup = g.spatial_lookup ∧
      (set_grid_cell_type g row col t).1.density = g.density) := by
  obtain ⟨-, -, -, hctlen, hctrow, -⟩ := hwf
  by_cases h1 : row ≥ g.rows
  · have e : set_grid_cell_type g row col t =
        (g, some (Error.OutOfGridBounds "X-coord. is out of bounds!")) := by
      simp [set_grid_cell_type, h1]
    rw [e]
    refine ⟨⟨fun _ => Or.inl h1, fun _ => ⟨"X-coord. is out of bounds!", rfl⟩⟩,
      fun _ => rfl, fun hr _ => absurd h1 (Nat.not_le_of_lt hr)⟩
  · by_cases h2 : col ≥ g.cols
    · have e : set_grid_cell_type g row col t =
          (g, some (Error.OutOfGridBounds "Y-coord. is out of bounds!")) := by
        simp [set_grid_cell_type, h1, h2]
      rw [e]
      refine ⟨⟨fun _ => Or.inr h2, fun _ => ⟨"Y-coord. is out of bounds!", rfl⟩⟩,
        fun _ => rfl, fun _ hc => absurd h2 (Nat.not_le_of_lt hc)⟩
    · have e : set_grid_cell_type g row col t =
          ({ g with cell_type := set2 g.cell_type row col t }, none) := by
        simp [set_grid_cell_type, h1, h2]
      rw [e]
      have hr : row < g.rows := Nat.lt_of_not_le h1
      have hc : col < g.cols := Nat.lt_of_not_le h2
      have hset : get2 (set2 g.cell_type row col t) row col SimGridCellType.Air = t :=
        get2_set2_self g.cell_type row col t SimGridCellType.Air
          (hctlen ▸ hr) ((getD_row_length g.cell_type row g.cols (hctlen ▸ hr) hctrow) ▸ hc)
      have hkeep : ∀ r' c', ¬(r' = row ∧ c' = col) →
          get2 (set2 g.cell_type row col t) r' c' SimGridCellType.Air =
            get2 g.cell_type r' c' SimGridCellType.Air :=
        fun r' c' hne => get2_set2_ne g.cell_type row col t SimGridCellType.Air r' c' hne
      exact ⟨⟨fun ⟨_, hm⟩ => Option.noConfusion hm,
          fun hor => hor.elim (fun h => absurd h h1) (fun h => absurd h h2)⟩,
        fun hor => hor.elim (fun h => absurd h h1) (fun h => absurd h h2),
        fun _ _ => ⟨rfl, hset, hkeep, rfl, rfl, rfl, rfl, rfl, rfl, rfl⟩⟩

/-- Claim C6 witness: the theorem applied to the well-formed grid `gVel` at
cell (1, 0) with `Solid`. -/
theorem set_grid_cell_type_spec_witness :
    get2 (set_grid_cell_type gVel 1 0 SimGridCellType.Solid).1.cell_type 1 0
        SimGridCellType.Air = SimGridCellType.Solid :=
  ((set_grid_cell_type_spec gVel 1 0 SimGridCellType.Solid (by decide)).2.2
    (by decide) (by decide)).2.1

/-- Claim C7: the claim says every out-of-bounds lookup index is a benign
skip.  The guard in the source uses a strict comparison, so the boundary
index `len` itself slips past it and the following indexing panics (modelled
by `none`); indices strictly above `len` are indeed benign skips. -/
theorem lookup_mutators_boundary_panic :
    gNear.spatial_lookup.length = 9 ∧
    add_particle_to_lookup gNear (Entity.id 1) 9 = none ∧
    remove_particle_from_lookup gNear (Entity.id 1) 9 = none ∧
    add_particle_to_lookup gNear (Entity.id 1) 10 = some gNear ∧
    remove_particle_from_lookup gNear (Entity.id 1) 10 = some gNear := by
  decide

/-- Claim C8: a step event processed while the simulation is paused runs
exactly one tick and leaves the paused flag set. -/
theorem step_event_while_paused (s : PauseState) (h : s.is_paused = true) :
    (handle_pause_event true s).is_paused = true ∧
    (handle_pause_event true s).ticks_run = s.ticks_run + 1 := by
  unfold handle_pause_event
  simp [h]

/-- Claim C8 witness: the theorem applied to the paused state with 4 ticks
run. -/
theorem step_event_while_paused_witness :
    (handle_pause_event true { is_paused := true, ticks_run := 4 }).is_paused = true ∧
    (handle_pause_event true { is_paused := true, ticks_run := 4 }).ticks_run = 4 + 1 :=
  step_event_while_paused { is_paused := true, ticks_run := 4 } (by decide)

theorem clamp_particle_x_keeps_y (radius grid_width : ℚ) (p : Particle) :
    (clamp_particle_x radius grid_width p).py = p.py ∧
    (clamp_particle_x radius grid_width p).vy = p.vy := by
  unfold clamp_particle_x
  split_ifs <;> exact ⟨rfl, rfl⟩

theorem clamp_particle_y_keeps_x (radius grid_height : ℚ) (p : Particle) :
    (clamp_particle_y radius grid_height p).px = p.px ∧
    (clamp_particle_y radius grid_height p).vx = p.vx := by
  unfold clamp_particle_y
  split_ifs <;> exact ⟨rfl, rfl⟩

theorem clamp_particle_x_spec (radius grid_width : ℚ) (p : Particle)
    (h : 2 * radius ≤ grid_width) :
    (radius ≤ (clamp_particle_x radius grid_width p).px ∧
      (clamp_particle_x radius grid_width p).px ≤ grid_width - radius) ∧
    (p.px < radius ∨ p.px > grid_width - radius →
      (clamp_particle_x radius grid_width p).vx = 0) ∧
    (¬(p.px < radius ∨ p.px > grid_width - radius) →
      (clamp_particle_x radius grid_width p).px = p.px ∧
      (clamp_particle_x radius grid_width p).vx = p.vx) := by
  unfold clamp_particle_x
  split_ifs with h1 h2 <;> (try dsimp only)
  · exact ⟨⟨le_refl _, by linarith⟩, fun _ => rfl, fun hn => absurd (Or.inl h1) hn⟩
  · exact ⟨⟨by linarith, le_refl _⟩, fun _ => rfl, fun hn => absurd (Or.inr h2) hn⟩
  · refine ⟨⟨by linarith, by linarith⟩, fun hor => ?_, fun _ => ⟨rfl, rfl⟩⟩
    rcases hor with h | h
    · exact absurd h h1
    · exact absurd h h2

theorem clamp_particle_y_spec (radius grid_height : ℚ) (p : Particle)
    (h : 2 * radius ≤ grid_height) :
    (radius ≤ (clamp_particle_y radius grid_height p).py ∧
      (clamp_particle_y radius grid_height p).py ≤ grid_height - radius) ∧
    (p.py < radius ∨ p.py > grid_height - radius →
      (clamp_particle_y radius grid_height p).vy = 0) ∧
    (¬(p.py < radius ∨ p.py > grid_height - radius) →
      (clamp_particle_y radius grid_height p).py = p.py ∧
      (clamp_particle_y radius grid_height p).vy = p.vy) := by
  unfold clamp_particle_y
  split_ifs with h1 h2 <;> (try dsimp only)
  · exact ⟨⟨le_refl _, by linarith⟩, fun _ => rfl, fun hn => absurd (Or.inl h1) hn⟩
  · exact ⟨⟨by linarith, le_refl _⟩, fun _ => rfl, fun hn => absurd (Or.inr h2) hn⟩
  · refine ⟨⟨by linarith, by linarith⟩, fun hor => ?_, fun _ => ⟨rfl, rfl⟩⟩
    rcases hor with h | h
    · exact absurd h h1
    · exact absurd h h2

/-- Claim C5: after `handle_particle_grid_collisions`, every particle lies in
`[r, W-r] × [r, H-r]` (with `W = cell_size * cols`, `H = cell_size * rows`,
stated for domains that can contain a particle, `2r ≤ W` and `2r ≤ H`); a
clamped axis has its velocity component zeroed and an unclamped axis keeps
both its position and its velocity. -/
theorem handle_particle_grid_collisions_spec (c : SimConstraints) (g : SimGrid)
    (ps : List Particle) (p : Particle)
    (hW : 2 * c.particle_radius ≤ (g.cell_size : ℚ) * g.cols)
    (hH : 2 * c.particle_radius ≤ (g.cell_size : ℚ) * g.rows) :
    (∀ q ∈ handle_particle_grid_collisions c g ps,
      c.particle_radius ≤ q.px ∧ q.px ≤ (g.cell_size : ℚ) * g.cols - c.particle_radius ∧
      c.particle_radius ≤ q.py ∧ q.py ≤ (g.cell_size : ℚ) * g.rows - c.particle_radius) ∧
    (p ∈ ps →
      clamp_particle c.particle_radius ((g.cell_size : ℚ) * g.cols) ((g.cell_size : ℚ) * g.rows) p ∈
        handle_particle_grid_collisions c g ps) ∧
    ((p.px < c.particle_radius ∨ p.px > (g.cell_size : ℚ) * g.cols - c.particle_radius →
      (clamp_particle c.particle_radius ((g.cell_size : ℚ) * g.cols) ((g.cell_size : ℚ) * g.rows) p).vx = 0) ∧
    (¬(p.px < c.particle_radius ∨ p.px > (g.cell_size : ℚ) * g.cols - c.particle_radius) →
      (clamp_particle c.particle_radius ((g.cell_size : ℚ) * g.cols) ((g.cell_size : ℚ) * g.rows) p).px = p.px ∧
      (clamp_particle c.particle_radius ((g.cell_size : ℚ) * g.cols) ((g.cell_size : ℚ) * g.rows) p).vx = p.vx) ∧
    (p.py < c.particle_radius ∨ p.py > (g.cell_size : ℚ) * g.rows - c.particle_radius →
      (clamp_particle c.particle_radius ((g.cell_size : ℚ) * g.cols) ((g.cell_size : ℚ) * g.rows) p).vy = 0) ∧
    (¬(p.py < c.particle_radius ∨ p.py > (g.cell_size : ℚ) * g.rows - c.particle_radius) →
      (clamp_particle c.particle_radius ((g.cell_size : ℚ) * g.cols) ((g.cell_size : ℚ) * g.rows) p).py = p.py ∧
      (clamp_particle c.particle_radius ((g.cell_size : ℚ) * g.cols) ((g.cell_size : ℚ) * g.rows) p).vy = p.vy)) := by
  set r := c.particle_radius with hr
  set W := (g.cell_size : ℚ) * g.cols with hWdef
  set H := (g.cell_size : ℚ) * g.rows with hHdef
  refine ⟨fun q hq => ?_, fun hp => ?_, ?_, ?_, ?_, ?_⟩
  · obtain ⟨p0, -, hmap⟩ := List.mem_map.mp hq
    subst hmap
    have hx := (clamp_particle_x_spec r W p0 hW).1
    have hy := (clamp_particle_y_spec r H (clamp_particle_x r W p0) hH).1
    have hkx := clamp_particle_y_keeps_x r H (clamp_particle_x r W p0)
    unfold clamp_particle
    exact ⟨hkx.1 ▸ hx.1, hkx.1 ▸ hx.2, hy.1, hy.2⟩
  · exact List.mem_map_of_mem _ hp
  · intro hor
    have hx := (clamp_particle_x_spec r W p hW).2.1 hor
    have hkx := clamp_particle_y_keeps_x r H (clamp_particle_x r W p)
    unfold clamp_particle
    rw [hkx.2, hx]
  · intro hnor
    have hx := (clamp_particle_x_spec r W p hW).2.2 hnor
    have hkx := clamp_particle_y_keeps_x r H (clamp_particle_x r W p)
    unfold clamp_particle
    rw [hkx.1, hkx.2, hx.1, hx.2]
    exact ⟨rfl, rfl⟩
  · intro hor
    have hky := clamp_particle_x_keeps_y r W p
    have hy := (clamp_particle_y_spec r H (clamp_particle_x r W p) hH).2.1
    unfold clamp_particle
    exact hy (hky.1 ▸ hor)
  · intro hnor
    have hky := clamp_particle_x_keeps_y r W p
    have hy := (clamp_particle_y_spec r H (clamp_particle_x r W p) hH).2.2
    have := hy (hky.1 ▸ hnor)
    unfold clamp_particle
    rw [this.1, this.2, hky.1, hky.2]
    exact ⟨rfl, rfl⟩

/-- Claim C5 witness: the theorem applied to `gIncomp` (W = 10, H = 5,
r = 2) and a particle out of bounds on both axes. -/
theorem handle_particle_grid_collisions_spec_witness :
    clamp_particle cIncomp.particle_radius ((gIncomp.cell_size : ℚ) * gIncomp.cols)
        ((gIncomp.cell_size : ℚ) * gIncomp.rows)
        { px := -3, py := 6, vx := -7, vy := 9 } ∈
      handle_particle_grid_collisions cIncomp gIncomp
        [{ px := -3, py := 6, vx := -7, vy := 9 }] :=
  (handle_particle_grid_collisions_spec cIncomp gIncomp
    [{ px := -3, py := 6, vx := -7, vy := 9 }] { px := -3, py := 6, vx := -7, vy := 9 }
    (by norm_num [cIncomp, gIncomp]) (by norm_num [cIncomp, gIncomp])).2.1 (by decide)

/-- Claim C10 counterexample: the claim promises the zero vector whenever
`row ≥ R`, but the guard compares `row as u16`; at `row = 65536` the cast
truncates to 0, the guard is missed, and the following indexing panics
(modelled as `none`). -/
theorem get_cell_velocity_truncation_ctrex :
    gVel.rows ≤ 65536 ∧ get_cell_velocity gVel 65536 1 = none ∧
    get_cell_velocity gVel 65536 1 ≠ some (0, 0) := by
  decide

/-- Claim C10 (amended to indices below 2^16, where the `as u16` casts are
the identity): `get_cell_velocity` returns the zero vector whenever
`row = 0`, `col = 0`, `row ≥ R` or `col ≥ C`, regardless of the stored face
velocities. -/
theorem get_cell_velocity_zero_guard (g : SimGrid) (row col : Nat)
    (hrow : row < 65536) (hcol : col < 65536)
    (h : row = 0 ∨ col = 0 ∨ g.rows ≤ row ∨ g.cols ≤ col) :
    get_cell_velocity g row col = some (0, 0) := by
  unfold get_cell_velocity
  rw [if_pos]
  rcases h with h | h | h | h
  · exact Or.inr (Or.inr (Or.inl h))
  · exact Or.inr (Or.inr (Or.inr h))
  · exact Or.inl (by rw [Nat.mod_eq_of_lt hrow]; exact h)
  · exact Or.inr (Or.inl (by rw [Nat.mod_eq_of_lt hcol]; exact h))

/-- Claim C10 witness: the top row of `gVel` reports zero velocity although
its stored face velocities are nonzero. -/
theorem get_cell_velocity_zero_guard_witness :
    get_cell_velocity gVel 0 1 = some (0, 0) :=
  get_cell_velocity_zero_guard gVel 0 1 (by decide) (by decide) (Or.inl rfl)

/-- Claim C4 counterexample: `particle_rest_density` is 3 (nonzero) before
the call, yet `make_grid_velocities_incompressible` overwrites it with the
mean 4 of the density array; the claim says a nonzero value is left
unchanged. -/
theorem rest_density_overwritten_ctrex :
    cRest.particle_rest_density = 3 ∧
    (make_grid_velocities_incompressible gRest cRest).2.particle_rest_density = 4 := by
  constructor
  · rfl
  · show (compute_rest_density gRest cRest).particle_rest_density = 4
    simp only [compute_rest_density, gRest, gIncomp, cRest, cIncomp]
    norm_num

/-- Claim C4 (amended): `make_grid_velocities_incompressible` recomputes
`particle_rest_density` as the mean of the density array on every call with
a non-empty density array, overwriting any previous value. -/
theorem rest_density_mean_every_call (g : SimGrid) (c : SimConstraints)
    (h : 0 < g.density.length) :
    (make_grid_velocities_incompressible g c).2.particle_rest_density =
      g.density.sum / (g.density.length : ℚ) := by
  have h2 : (make_grid_velocities_incompressible g c).2 = compute_rest_density g c := rfl
  rw [h2]
  simp only [compute_rest_density, foldl_add_eq_sum, foldl_count, zero_add]
  rw [if_pos]
  · exact_mod_cast Nat.cast_pos.mpr h
  -- the goal order: the if-condition side goal comes after using the branch

/-- Claim C4 witness for the amended statement: applied to the grid with
density array `[2, 6]`. -/
theorem rest_density_mean_every_call_witness :
    (make_grid_velocities_incompressible gRest cRest).2.particle_rest_density =
      gRest.density.sum / (gRest.density.length : ℚ) :=
  rest_density_mean_every_call gRest cRest (by decide)

/-- Claim C3: on the 3x3 grid `gNear`, the lookup index 5 decodes to cell
(1, 2) in the rightmost column, yet `get_nearby_particles` returns the
particle `id 7` stored in bucket 6 = cell (2, 0) of the following row
(wrap-around): the source's right-border test is
`lookup_index % (col_count - 1) == 0`, which is false at 5.  The particle is
in none of the buckets of the claimed truncated 3x3 neighborhood. -/
theorem get_nearby_particles_wraps_rightmost :
    Entity.id 7 ∈ get_nearby_particles gNear 5 ∧
    claimed_neighborhood gNear.rows gNear.cols 5 = [1, 2, 4, 5, 7, 8] ∧
    (6 : Nat) ∉ claimed_neighborhood gNear.rows gNear.cols 5 ∧
    get_particles_in_lookup gNear 6 = [Entity.id 7] ∧
    ((claimed_neighborhood gNear.rows gNear.cols 5).all
      (fun j => get_particles_in_lookup gNear j = [])) = true := by
  decide

theorem cell_index_lt (rows cols row col : Nat) (hrow : row < rows) (hcol : col < cols) :
    row * cols + col < rows * cols :=
  calc row * cols + col < row * cols + cols := Nat.add_lt_add_left hcol _
  _ = (row + 1) * cols := by ring
  _ ≤ rows * cols := Nat.mul_le_mul_right cols (Nat.succ_le_of_lt hrow)

theorem get_lookup_index_eq (g : SimGrid) (row col : Nat) (hrow : row < g.rows)
    (hcol : col < g.cols) (hsize : g.rows * g.cols < 65536) :
    get_lookup_index g row col = row * g.cols + col := by
  have hcols : 0 < g.cols := Nat.lt_of_le_of_lt (Nat.zero_le col) hcol
  have hrows : 0 < g.rows := Nat.lt_of_le_of_lt (Nat.zero_le row) hrow
  have hrow65 : row ≤ 65535 := by
    have h1 : g.rows ≤ g.rows * g.cols := Nat.le_mul_of_pos_right g.rows hcols
    omega
  have hcol65 : col ≤ 65535 := by
    have h1 : g.cols ≤ g.rows * g.cols := Nat.le_mul_of_pos_left g.cols hrows
    omega
  have hlt : row * g.cols + col < 65536 :=
    Nat.lt_trans (cell_index_lt g.rows g.cols row col hrow hcol) hsize
  unfold get_lookup_index
  rw [Nat.min_eq_left hrow65, Nat.min_eq_left hcol65, Nat.mod_eq_of_lt hlt]

theorem get_particles_in_lookup_eq (g : SimGrid) (i : Nat)
    (hi : i < g.rows * g.cols) (hsize : g.rows * g.cols < 65536) :
    get_particles_in_lookup g i =
      (g.spatial_lookup.getD i []).filter (fun e => ¬ (e = Entity.placeholder)) := by
  unfold get_particles_in_lookup
  rw [Nat.mod_eq_of_lt hsize, if_neg (Nat.not_le_of_lt hi)]

theorem filter_non_placeholder_eq_nil (l : List Entity) :
    l.filter (fun e => ¬ (e = Entity.placeholder)) = [] ↔
      ¬ ∃ e ∈ l, e ≠ Entity.placeholder := by
  rw [List.filter_eq_nil_iff]
  constructor
  · intro h ⟨e, he, hne⟩
    have := h e he
    simp at this
    exact hne this
  · intro h e he
    simp only [decide_not, Bool.not_eq_true', decide_eq_false_iff_not, Decidable.not_not]
    by_contra hne
    exact h ⟨e, he, by simpa using hne⟩

theorem label_cells_get2 (g : SimGrid) (row col : Nat) (hrow : row < g.rows)
    (hcol : col < g.cols) :
    get2 (label_cells g).cell_type row col SimGridCellType.Air =
      (if get2 g.cell_type row col SimGridCellType.Air = SimGridCellType.Solid then
        SimGridCellType.Solid
      else if get_particles_in_lookup g (get_lookup_index g row col) = [] then
        SimGridCellType.Air
      else SimGridCellType.Fluid) := by
  exact get2_map_range g.rows g.cols _ row col SimGridCellType.Air hrow hcol

/-- Claim C9 counterexample: on `gLabel`, the single non-Solid cell's bucket
is non-empty (it holds the placeholder sentinel), yet `label_cells` labels
the cell Air, where the claim requires Fluid. -/
theorem label_cells_placeholder_ctrex :
    gLabel.spatial_lookup.getD 0 [] ≠ [] ∧
    get2 gLabel.cell_type 0 0 SimGridCellType.Air ≠ SimGridCellType.Solid ∧
    get2 (label_cells gLabel).cell_type 0 0 SimGridCellType.Air = SimGridCellType.Air := by
  refine ⟨by decide, by decide, ?_⟩
  rw [label_cells_get2 gLabel 0 0 (by decide) (by decide)]
  decide

/-- Claim C9 (amended: a bucket holding only the placeholder sentinel counts
as empty): `label_cells` is idempotent when `spatial_lookup` and the grid
shape are unchanged between runs, leaves Solid cells Solid, sets each other
cell with a non-placeholder entry in its bucket to Fluid, and every
remaining cell to Air. -/
theorem label_cells_idempotent_spec (g : SimGrid) (hwf : WF g) :
    label_cells (label_cells g) = label_cells g ∧
    ∀ row col, row < g.rows → col < g.cols →
      get2 (label_cells g).cell_type row col SimGridCellType.Air =
        (if get2 g.cell_type row col SimGridCellType.Air = SimGridCellType.Solid then
          SimGridCellType.Solid
        else if ∃ e ∈ g.spatial_lookup.getD (row * g.cols + col) [], e ≠ Entity.placeholder then
          SimGridCellType.Fluid
        else SimGridCellType.Air) := by
  obtain ⟨-, -, hsize, -, -, -, -, -, -, -, -⟩ := hwf
  constructor
  · refine SimGrid.ext rfl rfl rfl ?_ rfl rfl rfl rfl
    show (List.range g.rows).map (fun row => (List.range g.cols).map (fun col =>
        if get2 (label_cells g).cell_type row col SimGridCellType.Air = SimGridCellType.Solid
        then SimGridCellType.Solid
        else if get_particles_in_lookup g (get_lookup_index g row col) = [] then
          SimGridCellType.Air
        else SimGridCellType.Fluid)) =
      (List.range g.rows).map (fun row => (List.range g.cols).map (fun col =>
        if get2 g.cell_type row col SimGridCellType.Air = SimGridCellType.Solid
        then SimGridCellType.Solid
        else if get_particles_in_lookup g (get_lookup_index g row col) = [] then
          SimGridCellType.Air
        else SimGridCellType.Fluid))
    apply List.map_congr_left
    intro row hrowmem
    apply List.map_congr_left
    intro col hcolmem
    have hrow := List.mem_range.mp hrowmem
    have hcol := List.mem_range.mp hcolmem
    rw [label_cells_get2 g row col hrow hcol]
    by_cases hs : get2 g.cell_type row col SimGridCellType.Air = SimGridCellType.Solid
    · rw [if_pos hs, if_pos rfl]
    · rw [if_neg hs]
      by_cases hb : get_particles_in_lookup g (get_lookup_index g row col) = []
      · rw [if_pos hb, if_neg (by decide)]
      · rw [if_neg hb, if_neg (by decide)]
  · intro row col hrow hcol
    rw [label_cells_get2 g row col hrow hcol,
      get_lookup_index_eq g row col hrow hcol hsize,
      get_particles_in_lookup_eq g (row * g.cols + col)
        (cell_index_lt g.rows g.cols row col hrow hcol) hsize]
    by_cases hs : get2 g.cell_type row col SimGridCellType.Air = SimGridCellType.Solid
    · rw [if_pos hs, if_pos hs]
    · rw [if_neg hs, if_neg hs]
      by_cases hex : ∃ e ∈ g.spatial_lookup.getD (row * g.cols + col) [],
          e ≠ Entity.placeholder
      · rw [if_neg (fun hnil => ((filter_non_placeholder_eq_nil _).mp hnil) hex),
          if_pos hex]
      · rw [if_pos ((filter_non_placeholder_eq_nil _).mpr hex), if_neg hex]

/-- Claim C9 witness: the theorem applied to `gLabelW`, a grid with a real
particle in bucket 0 and a Solid cell at (0, 1). -/
theorem label_cells_idempotent_spec_witness :
    label_cells (label_cells gLabelW) = label_cells gLabelW ∧
    get2 (label_cells gLabelW).cell_type 0 0 SimGridCellType.Air = SimGridCellType.Fluid := by
  have h := label_cells_idempotent_spec gLabelW (by decide)
  refine ⟨h.1, ?_⟩
  rw [h.2 0 0 (by decide) (by decide)]
  rw [if_neg (by decide), if_pos (by decide)]

theorem get_cell_type_value_oob_row (g : SimGrid) (row col : Nat) (h : g.rows ≤ row) :
    get_cell_type_value g row col = 0 := by
  unfold get_cell_type_value
  rw [if_pos (Or.inl h)]

theorem get_cell_type_value_oob_col (g : SimGrid) (row col : Nat) (h : g.cols ≤ col) :
    get_cell_type_value g row col = 0 := by
  unfold get_cell_type_value
  rw [if_pos (Or.inr h)]

theorem wrapping_left_eq (g : SimGrid) (row col : Nat) (hcols : g.cols < 65536) :
    get_cell_type_value g row (wrappingSub1 col) =
      (if col = 0 then 0 else get_cell_type_value g row (col - 1)) := by
  by_cases hc : col = 0
  · subst hc
    rw [if_pos rfl]
    unfold wrappingSub1
    rw [if_pos rfl]
    exact get_cell_type_value_oob_col g row _ (by omega)
  · unfold wrappingSub1
    rw [if_neg hc, if_neg hc]

theorem wrapping_up_eq (g : SimGrid) (row col : Nat) (hrows : g.rows < 65536) :
    get_cell_type_value g (wrappingSub1 row) col =
      (if row = 0 then 0 else get_cell_type_value g (row - 1) col) := by
  by_cases hr : row = 0
  · subst hr
    rw [if_pos rfl]
    unfold wrappingSub1
    rw [if_pos rfl]
    exact get_cell_type_value_oob_row g _ col (by omega)
  · unfold wrappingSub1
    rw [if_neg hr, if_neg hr]

theorem calculate_cell_solids_eq (g : SimGrid) (row col : Nat)
    (hrows : g.rows < 65536) (hcols : g.cols < 65536) :
    calculate_cell_solids g row col =
      [get_cell_type_value g row col,
       (if col = 0 then 0 else get_cell_type_value g row (col - 1)),
       get_cell_type_value g row (col + 1),
       (if row = 0 then 0 else get_cell_type_value g (row - 1) col),
       get_cell_type_value g (row + 1) col] := by
  unfold calculate_cell_solids
  rw [wrapping_left_eq g row col hcols, wrapping_up_eq g row col hrows]

theorem solids_getD_1 (g : SimGrid) (row col : Nat)
    (hrows : g.rows < 65536) (hcols : g.cols < 65536) :
    (calculate_cell_solids g row col).getD 1 0 = (spec_solid_mask g row col).1 := by
  rw [calculate_cell_solids_eq g row col hrows hcols]
  rfl

theorem solids_getD_2 (g : SimGrid) (row col : Nat)
    (hrows : g.rows < 65536) (hcols : g.cols < 65536) :
    (calculate_cell_solids g row col).getD 2 0 = (spec_solid_mask g row col).2.1 := by
  rw [calculate_cell_solids_eq g row col hrows hcols]
  rfl

theorem solids_getD_3 (g : SimGrid) (row col : Nat)
    (hrows : g.rows < 65536) (hcols : g.cols < 65536) :
    (calculate_cell_solids g row col).getD 3 0 = (spec_solid_mask g row col).2.2.1 := by
  rw [calculate_cell_solids_eq g row col hrows hcols]
  rfl

theorem solids_getD_4 (g : SimGrid) (row col : Nat)
    (hrows : g.rows < 65536) (hcols : g.cols < 65536) :
    (calculate_cell_solids g row col).getD 4 0 = (spec_solid_mask g row col).2.2.2 := by
  rw [calculate_cell_solids_eq g row col hrows hcols]
  rfl

theorem adjusted_divergence_eq (c : SimConstraints) (g : SimGrid) (row col : Nat) :
    (if 0 < c.particle_rest_density then
      (if 0 < g.density.getD (get_lookup_index g row col) 0 - c.particle_rest_density then
        calculate_cell_divergence g row col -
          1 * (g.density.getD (get_lookup_index g row col) 0 - c.particle_rest_density)
      else calculate_cell_divergence g row col)
    else calculate_cell_divergence g row col) = spec_adjusted_divergence c g row col := by
  have hdc : calculate_cell_divergence g row col = spec_divergence g row col := rfl
  unfold spec_adjusted_divergence
  split_ifs with h1 h2 h3 <;> first | rfl | tauto

theorem momentum_eq (c : SimConstraints) (g : SimGrid) (row col : Nat) :
    (199 / 100 : ℚ) *
      ((0 - (if 0 < c.particle_rest_density then
        (if 0 < g.density.getD (get_lookup_index g row col) 0 - c.particle_rest_density then
          calculate_cell_divergence g row col -
            1 * (g.density.getD (get_lookup_index g row col) 0 - c.particle_rest_density)
        else calculate_cell_divergence g row col)
      else calculate_cell_divergence g row col)) /
        (((spec_solid_mask g row col).1 + (spec_solid_mask g row col).2.1 +
          (spec_solid_mask g row col).2.2.1 + (spec_solid_mask g row col).2.2.2 : Nat) : ℚ)) =
    spec_momentum c g row col := by
  rw [adjusted_divergence_eq c g row col]
  unfold spec_momentum spec_solid_sum
  rw [mul_div_assoc]

/-- Claim C1: every cell visit of the Gauss-Seidel loop of
`make_grid_velocities_incompressible` (the iteration folds
`incomp_cell_update` over all cells) applies exactly the claimed update to a
Fluid cell with nonzero neighbor mask sum `S`: with
`D = (u[r][c+1] - u[r][c]) + (v[r][c] - v[r+1][c])`, reduced by
`1.0 * compression` when `particle_rest_density > 0` and
`compression = density[idx] - particle_rest_density > 0`, and
`m = 1.99 * (-D) / S`, it performs `u[r][c] -= m*s_L`, `u[r][c+1] += m*s_R`,
`v[r][c] += m*s_U`, `v[r+1][c] -= m*s_D` and changes nothing else; a
non-Fluid cell or one with `S = 0` is left entirely unchanged. -/
theorem incomp_cell_update_formula (c : SimConstraints) (g : SimGrid) (row col : Nat)
    (hwf : WF g) (hrow : row < g.rows) (hcol : col < g.cols) :
    (get2 g.cell_type row col SimGridCellType.Air = SimGridCellType.Fluid ∧
        spec_solid_sum g row col ≠ 0 →
      get2 (incomp_cell_update c g row col).velocity_u row col 0 =
          get2 g.velocity_u row col 0 -
            spec_momentum c g row col * ((spec_solid_mask g row col).1 : ℚ) ∧
      get2 (incomp_cell_update c g row col).velocity_u row (col + 1) 0 =
          get2 g.velocity_u row (col + 1) 0 +
            spec_momentum c g row col * ((spec_solid_mask g row col).2.1 : ℚ) ∧
      get2 (incomp_cell_update c g row col).velocity_v row col 0 =
          get2 g.velocity_v row col 0 +
            spec_momentum c g row col * ((spec_solid_mask g row col).2.2.1 : ℚ) ∧
      get2 (incomp_cell_update c g row col).velocity_v (row + 1) col 0 =
          get2 g.velocity_v (row + 1) col 0 -
            spec_momentum c g row col * ((spec_solid_mask g row col).2.2.2 : ℚ) ∧
      (∀ r' c', ¬(r' = row ∧ (c' = col ∨ c' = col + 1)) →
        get2 (incomp_cell_update c g row col).velocity_u r' c' 0 =
          get2 g.velocity_u r' c' 0) ∧
      (∀ r' c', ¬(c' = col ∧ (r' = row ∨ r' = row + 1)) →
        get2 (incomp_cell_update c g row col).velocity_v r' c' 0 =
          get2 g.velocity_v r' c' 0) ∧
      (incomp_cell_update c g row col).cell_type = g.cell_type ∧
      (incomp_cell_update c g row col).density = g.density ∧
      (incomp_cell_update c g row col).spatial_lookup = g.spatial_lookup ∧
      (incomp_cell_update c g row col).rows = g.rows ∧
      (incomp_cell_update c g row col).cols = g.cols ∧
      (incomp_cell_update c g row col).cell_size = g.cell_size) ∧
    (¬(get2 g.cell_type row col SimGridCellType.Air = SimGridCellType.Fluid ∧
        spec_solid_sum g row col ≠ 0) →
      incomp_cell_update c g row col = g) := by
  obtain ⟨hrows, hcols, -, -, -, hulen, hurow, hvlen, hvrow, -, -⟩ := hwf
  have hu1 : row < g.velocity_u.length := by rw [hulen]; exact hrow
  have hu2 : col < (g.velocity_u.getD row []).length := by
    rw [getD_row_length g.velocity_u row (g.cols + 1) hu1 hurow]
    exact Nat.lt_succ_of_lt hcol
  have hu2' : col + 1 < (g.velocity_u.getD row []).length := by
    rw [getD_row_length g.velocity_u row (g.cols + 1) hu1 hurow]
    omega
  have hv1 : row < g.velocity_v.length := by rw [hvlen]; omega
  have hv1' : row + 1 < g.velocity_v.length := by rw [hvlen]; omega
  have hv2 : col < (g.velocity_v.getD row []).length := by
    rw [getD_row_length g.velocity_v row g.cols hv1 hvrow]
    exact hcol
  have hv2' : col < (g.velocity_v.getD (row + 1) []).length := by
    rw [getD_row_length g.velocity_v (row + 1) g.cols hv1' hvrow]
    exact hcol
  constructor
  · rintro ⟨hF, hS⟩
    have hS' : ¬((spec_solid_mask g row col).1 + (spec_solid_mask g row col).2.1 +
        (spec_solid_mask g row col).2.2.1 + (spec_solid_mask g row col).2.2.2 = 0) := hS
    have hmain : incomp_cell_update c g row col =
        { g with
          velocity_u :=
            set2 (set2 g.velocity_u row col
                (get2 g.velocity_u row col 0 -
                  spec_momentum c g row col * ((spec_solid_mask g row col).1 : ℚ)))
              row (col + 1)
              (get2 (set2 g.velocity_u row col
                  (get2 g.velocity_u row col 0 -
                    spec_momentum c g row col * ((spec_solid_mask g row col).1 : ℚ)))
                row (col + 1) 0 +
                spec_momentum c g row col * ((spec_solid_mask g row col).2.1 : ℚ)),
          velocity_v :=
            set2 (set2 g.velocity_v row col
                (get2 g.velocity_v row col 0 +
                  spec_momentum c g row col * ((spec_solid_mask g row col).2.2.1 : ℚ)))
              (row + 1) col
              (get2 (set2 g.velocity_v row col
                  (get2 g.velocity_v row col 0 +
                    spec_momentum c g row col * ((spec_solid_mask g row col).2.2.1 : ℚ)))
                (row + 1) col 0 -
                spec_momentum c g row col * ((spec_solid_mask g row col).2.2.2 : ℚ)) } := by
      simp only [incomp_cell_update]
      rw [if_neg (not_not_intro hF)]
      simp only [solids_getD_1 g row col hrows hcols, solids_getD_2 g row col hrows hcols,
        solids_getD_3 g row col hrows hcols, solids_getD_4 g row col hrows hcols]
      rw [if_neg hS']
      rw [momentum_eq c g row col]
    rw [hmain]
    have hinnu : get2 (set2 g.velocity_u row col
        (get2 g.velocity_u row col 0 -
          spec_momentum c g row col * ((spec_solid_mask g row col).1 : ℚ)))
        row (col + 1) 0 = get2 g.velocity_u row (col + 1) 0 :=
      get2_set2_ne _ row col _ 0 row (col + 1) (fun h => by omega)
    have hinnv : get2 (set2 g.velocity_v row col
        (get2 g.velocity_v row col 0 +
          spec_momentum c g row col * ((spec_solid_mask g row col).2.2.1 : ℚ)))
        (row + 1) col 0 = get2 g.velocity_v (row + 1) col 0 :=
      get2_set2_ne _ row col _ 0 (row + 1) col (fun h => by omega)
    refine ⟨?_, ?_, ?_, ?_, ?_, ?_, rfl, rfl, rfl, rfl, rfl, rfl⟩
    · show get2 (set2 (set2 g.velocity_u row col _) row (col + 1) _) row col 0 = _
      rw [get2_set2_ne _ row (col + 1) _ 0 row col (fun h => by omega)]
      exact get2_set2_self g.velocity_u row col _ 0 hu1 hu2
    · show get2 (set2 (set2 g.velocity_u row col _) row (col + 1) _) row (col + 1) 0 = _
      rw [get2_set2_self _ row (col + 1) _ 0
        (by rw [length_set2]; exact hu1)
        (by rw [getD_row_set2_self _ row col _ hu1, List.length_set]; exact hu2')]
      rw [hinnu]
    · show get2 (set2 (set2 g.velocity_v row col _) (row + 1) col _) row col 0 = _
      rw [get2_set2_ne _ (row + 1) col _ 0 row col (fun h => by omega)]
      exact get2_set2_self g.velocity_v row col _ 0 hv1 hv2
    · show get2 (set2 (set2 g.velocity_v row col _) (row + 1) col _) (row + 1) col 0 = _
      rw [get2_set2_self _ (row + 1) col _ 0
        (by rw [length_set2]; exact hv1')
        (by rw [getD_row_set2_ne _ row col _ (row + 1) (by omega)]; exact hv2')]
      rw [hinnv]
    · intro r' c' hne
      show get2 (set2 (set2 g.velocity_u row col _) row (col + 1) _) r' c' 0 = _
      rw [get2_set2_ne _ row (col + 1) _ 0 r' c' (fun h => hne ⟨h.1, Or.inr h.2⟩),
        get2_set2_ne _ row col _ 0 r' c' (fun h => hne ⟨h.1, Or.inl h.2⟩)]
    · intro r' c' hne
      show get2 (set2 (set2 g.velocity_v row col _) (row + 1) col _) r' c' 0 = _
      rw [get2_set2_ne _ (row + 1) col _ 0 r' c' (fun h => hne ⟨h.2, Or.inr h.1⟩),
        get2_set2_ne _ row col _ 0 r' c' (fun h => hne ⟨h.2, Or.inl h.1⟩)]
  · intro h
    by_cases hF : get2 g.cell_type row col SimGridCellType.Air = SimGridCellType.Fluid
    · have hS0 : spec_solid_sum g row col = 0 := by
        by_contra hS
        exact h ⟨hF, hS⟩
      have hS0' : (spec_solid_mask g row col).1 + (spec_solid_mask g row col).2.1 +
          (spec_solid_mask g row col).2.2.1 + (spec_solid_mask g row col).2.2.2 = 0 := hS0
      simp only [incomp_cell_update]
      rw [if_neg (not_not_intro hF)]
      simp only [solids_getD_1 g row col hrows hcols, solids_getD_2 g row col hrows hcols,
        solids_getD_3 g row col hrows hcols, solids_getD_4 g row col hrows hcols]
      rw [if_pos hS0']
    · simp only [incomp_cell_update]
      rw [if_pos hF]

/-- Claim C1 witness: the theorem applied to `gIncomp` at its Fluid cell
(0, 0), whose only non-Solid in-bounds neighbor is the right one (S = 1),
projecting out the right-face update `u[0][1] += m * s_R`. -/
theorem incomp_cell_update_formula_witness :
    get2 (incomp_cell_update cIncomp gIncomp 0 0).velocity_u 0 1 0 =
      get2 gIncomp.velocity_u 0 1 0 +
        spec_momentum cIncomp gIncomp 0 0 * ((spec_solid_mask gIncomp 0 0).2.1 : ℚ) :=
  (((incomp_cell_update_formula cIncomp gIncomp 0 0 (by decide) (by decide)
    (by decide)).1 ⟨by decide, by decide⟩).2).1

theorem p2g_foldl_general (dist : ℚ × ℚ → ℚ × ℚ → ℚ) (cell_size : Nat) (pos : ℚ × ℚ)
    (comp : Particle → ℚ) (ps : List Particle) (acc : ℚ × ℚ) :
    ps.foldl (fun acc p =>
      let influence := find_influence_of_dist (dist (p.px, p.py) pos) cell_size
      if influence ≠ 0 then (acc.1 + influence, acc.2 + comp p * influence) else acc) acc =
      (acc.1 + spec_influence_sum dist cell_size pos ps,
       acc.2 + spec_weighted_sum dist cell_size pos comp ps) := by
  induction ps generalizing acc with
  | nil => simp [spec_influence_sum, spec_weighted_sum]
  | cons p ps ih =>
    simp only [List.foldl_cons, spec_influence_sum, spec_weighted_sum, List.map_cons,
      List.sum_cons]
    by_cases h : find_influence_of_dist (dist (p.px, p.py) pos) cell_size = 0
    · show List.foldl _ (if find_influence_of_dist (dist (p.px, p.py) pos) cell_size ≠ 0 then _
        else acc) ps = _
      rw [if_neg (not_not_intro h), ih, h]
      simp only [Prod.mk.injEq, spec_influence_sum, spec_weighted_sum]
      constructor <;> ring
    · show List.foldl _ (if find_influence_of_dist (dist (p.px, p.py) pos) cell_size ≠ 0 then
        (acc.1 + find_influence_of_dist (dist (p.px, p.py) pos) cell_size,
         acc.2 + comp p * find_influence_of_dist (dist (p.px, p.py) pos) cell_size)
        else acc) ps = _
      rw [if_pos h, ih]
      simp only [Prod.mk.injEq, spec_influence_sum, spec_weighted_sum]
      constructor <;> ring

theorem p2g_accumulate_eq (dist : ℚ × ℚ → ℚ × ℚ → ℚ) (cell_size : Nat) (pos : ℚ × ℚ)
    (comp : Particle → ℚ) (ps : List Particle) :
    p2g_accumulate dist cell_size pos comp ps =
      (spec_influence_sum dist cell_size pos ps,
       spec_weighted_sum dist cell_size pos comp ps) := by
  unfold p2g_accumulate
  rw [p2g_foldl_general]
  simp

/-- Claim C2 (amended): every in-bounds face of the grids written by
`particles_to_grid` holds the sentinel `f32::MIN` exactly when the face is
skipped (outer boundary, Air-Air, or Solid-Solid); otherwise it holds 0 when
the total influence `Σ w_i` over all particles is zero — in particular also
when no particle contributes at all — and the influence-weighted average
`Σ w_i * v_i / Σ w_i` otherwise.  Stated for every distance function `dist`
standing for the `f32` Euclidean distance used by `find_influence`. -/
theorem particles_to_grid_face_values (dist : ℚ × ℚ → ℚ × ℚ → ℚ) (g : SimGrid)
    (ps : List Particle) (row col : Nat) :
    (row < g.rows → col < g.cols + 1 →
      get2 (particles_to_grid dist g ps).velocity_u row col 0 =
        (if p2g_u_skipped g row col then fMIN
         else if spec_influence_sum dist g.cell_size
             (get_velocity_point_pos g row col true) ps = 0 then 0
         else spec_weighted_sum dist g.cell_size (get_velocity_point_pos g row col true)
             (fun p => p.vx) ps /
           spec_influence_sum dist g.cell_size (get_velocity_point_pos g row col true) ps)) ∧
    (row < g.rows + 1 → col < g.cols →
      get2 (particles_to_grid dist g ps).velocity_v row col 0 =
        (if p2g_v_skipped g row col then fMIN
         else if spec_influence_sum dist g.cell_size
             (get_velocity_point_pos g row col false) ps = 0 then 0
         else spec_weighted_sum dist g.cell_size (get_velocity_point_pos g row col false)
             (fun p => p.vy) ps /
           spec_influence_sum dist g.cell_size (get_velocity_point_pos g row col false) ps)) := by
  constructor
  · intro h1 h2
    have e : get2 (particles_to_grid dist g ps).velocity_u row col 0 =
        p2g_u_face dist g ps row col :=
      get2_map_range g.rows (g.cols + 1) (fun r c => p2g_u_face dist g ps r c) row col 0 h1 h2
    rw [e]
    simp only [p2g_u_face, p2g_accumulate_eq]
  · intro h1 h2
    have e : get2 (particles_to_grid dist g ps).velocity_v row col 0 =
        p2g_v_face dist g ps row col :=
      get2_map_range (g.rows + 1) g.cols (fun r c => p2g_v_face dist g ps r c) row col 0 h1 h2
    rw [e]
    simp only [p2g_v_face, p2g_accumulate_eq]

/-- Claim C2 witness: the theorem applied to `gP2G` at the interior
horizontal face (0, 1). -/
theorem particles_to_grid_face_values_witness :
    get2 (particles_to_grid dzero gP2G []).velocity_u 0 1 0 =
      (if p2g_u_skipped gP2G 0 1 then fMIN
       else if spec_influence_sum dzero gP2G.cell_size
           (get_velocity_point_pos gP2G 0 1 true) [] = 0 then 0
       else spec_weighted_sum dzero gP2G.cell_size (get_velocity_point_pos gP2G 0 1 true)
           (fun p => p.vx) [] /
         spec_influence_sum dzero gP2G.cell_size (get_velocity_point_pos gP2G 0 1 true) []) :=
  (particles_to_grid_face_values dzero gP2G [] 0 1).1 (by decide) (by decide)

/-- Claim C2 counterexample: on `gP2G` (two Fluid cells, no particles at
all), the interior horizontal face (0, 1) is not skipped and no particle
contributes, yet `particles_to_grid` writes 0 there, not the sentinel
`f32::MIN` the claim requires for the no-contribution case. -/
theorem p2g_no_contribution_sets_zero_ctrex :
    get2 (particles_to_grid dzero gP2G []).velocity_u 0 1 0 = 0 ∧
    p2g_u_skipped gP2G 0 1 = false ∧ (0 : ℚ) ≠ fMIN := by
  have hskip : p2g_u_skipped gP2G 0 1 = false := by
    norm_num [p2g_u_skipped, get_velocity_point_pos, get_cell_coordinates_from_position,
      get2, gP2G, List.getD]
    exact ⟨by decide, by decide⟩
  refine ⟨?_, hskip, by norm_num [fMIN]⟩
  show get2 ((List.range gP2G.rows).map fun r =>
      (List.range (gP2G.cols + 1)).map fun c => p2g_u_face dzero gP2G [] r c) 0 1 0 = 0
  rw [get2_map_range gP2G.rows (gP2G.cols + 1) (fun r c => p2g_u_face dzero gP2G [] r c) 0 1 0
    (by decide) (by decide)]
  simp [p2g_u_face, hskip, p2g_accumulate]

end JuiceBox
